import Mathlib

/-!
Verification of the failure-triage / self-healing control loop of this
repository (scripts/autofix_workflow.py and
scripts/diagnose_workflow_failure.py), as a shallow embedding in Lean.

Modelling conventions, fixed once for the whole file:

* Wall-clock instants are integers counting seconds (`Int`).  Python's
  `datetime` arithmetic with `timedelta(minutes=m)` becomes `+ m * 60`.
* A timestamp string stored in the ledger either parses
  (`datetime.fromisoformat` succeeds, modelled `some t : Option Int`) or
  raises `ValueError` (modelled `none`).  A function in which an uncaught
  parse error can propagate returns `Option _`, with `none` standing for
  the raised exception.
* The persisted JSON document `.github/fix_attempts.json` is a JSON object
  keyed by workflow name; it is modelled as an association list
  (`List (String × JobHistory)`), with dict-lookup and dict-assignment
  spelled out (`ledger_find` / `ledger_set`).
* Side effects of the remediation path (running `gh issue create`,
  running `gh workflow run`, printing to stdout, writing the attempts
  file) are modelled as an explicit trace of `Effect`s.  Outcomes of the
  external `gh` calls are supplied by an `Env` record; `Env` also carries
  the wall clock (`datetime.now()`) in the two forms the script uses.
  Warnings printed to stderr inside `check_cooldown`'s exception handler
  are not part of the trace (they accompany a result the functions
  already return).
-/

/-- One entry of the `attempts` array of a job's history, as persisted by
`record_fix_attempt`.  `timestamp` is the parse result of the stored
ISO-8601 string: `none` means the stored string does not parse. -/
structure AttemptRecord where
  timestamp : Option Int
  failure_type : String
  action : String
  success : Bool
deriving DecidableEq, Repr

/-- Per-workflow history: the `attempts` array and the `last_attempt`
field.  `last_attempt = none` models a missing key, a JSON `null` or an
empty string (all falsy in `check_cooldown`); `some none` models a
present but unparsable timestamp string; `some (some t)` parses to `t`. -/
structure JobHistory where
  attempts : List AttemptRecord
  last_attempt : Option (Option Int)
deriving DecidableEq, Repr

/-- The whole persisted document: a JSON object keyed by workflow name. -/
abbrev Ledger := List (String × JobHistory)

/-- Python dict lookup `attempts.get(workflow_name)` /
`workflow_name in attempts`. -/
def ledger_find (l : Ledger) (w : String) : Option JobHistory :=
  match l with
  | [] => none
  | (k, v) :: rest => if w = k then some v else ledger_find rest w

/-- Python dict assignment `attempts[workflow_name] = h`: replaces the
entry in place if the key exists, otherwise appends it. -/
def ledger_set (l : Ledger) (w : String) (h : JobHistory) : Ledger :=
  if (ledger_find l w).isSome then
    l.map (fun p => if p.1 = w then (w, h) else p)
  else
    l ++ [(w, h)]

/-- `MAX_FIX_ATTEMPTS_PER_HOUR = 3` (autofix_workflow.py line 33). -/
def MAX_FIX_ATTEMPTS_PER_HOUR : Nat := 3

/-- `COOLDOWN_MINUTES = 60` (autofix_workflow.py line 34). -/
def COOLDOWN_MINUTES : Int := 60

/-- `API_QUOTA_WAIT_MINUTES = 120` (autofix_workflow.py line 35). -/
def API_QUOTA_WAIT_MINUTES : Nat := 120

/-- `RETRY_DELAY_MINUTES = 10` (autofix_workflow.py line 36). -/
def RETRY_DELAY_MINUTES : Nat := 10

/-- `check_cooldown` (autofix_workflow.py lines 81-109).  The whole parse
and comparison sits in a `try` whose `except` returns `(True, None)`, so
an unparsable `last_attempt` admits.  `minutes_remaining` is
`int(remaining_seconds / 60)`; the remaining time is positive in the
branch where it is computed, so Python's truncation toward zero is
floor division, modelled on `Int.toNat` and `Nat` division. -/
def check_cooldown (workflow_name : String) (attempts : Ledger) (now : Int) :
    Bool × Option String :=
  match ledger_find attempts workflow_name with
  | none => (true, none)
  | some workflow_attempts =>
    match workflow_attempts.last_attempt with
    | none => (true, none)
    | some none => (true, none)
    | some (some last_attempt) =>
      let cooldown_until := last_attempt + COOLDOWN_MINUTES * 60
      if now < cooldown_until then
        (false, some ("Cooldown active for " ++
          toString ((cooldown_until - now).toNat / 60) ++
          " more minutes (60-min cooldown period)"))
      else
        (true, none)

/-- `check_rate_limit` (autofix_workflow.py lines 112-135).  The list
comprehension parses every stored timestamp with **no** surrounding
`try`; if any entry's timestamp does not parse, `ValueError` propagates
to the caller, modelled by the `none` result.  The window test is the
strict comparison `parsed > now - timedelta(hours=1)`. -/
def check_rate_limit (workflow_name : String) (attempts : Ledger) (now : Int) :
    Option (Bool × Option String) :=
  match ledger_find attempts workflow_name with
  | none => some (true, none)
  | some workflow_attempts =>
    let recent_attempts := workflow_attempts.attempts
    if recent_attempts.all (fun a => a.timestamp.isSome) then
      let one_hour_ago := now - 3600
      let recent := recent_attempts.filter (fun a =>
        match a.timestamp with
        | some t => decide (one_hour_ago < t)
        | none => false)
      if MAX_FIX_ATTEMPTS_PER_HOUR ≤ recent.length then
        some (false, some ("Rate limit exceeded: " ++ toString recent.length ++
          "/" ++ toString MAX_FIX_ATTEMPTS_PER_HOUR ++ " attempts in last hour"))
      else
        some (true, none)
    else
      none

/-- The number of recorded attempts whose timestamp parses and lies
strictly inside the trailing one-hour window of `now` — the `len(recent)`
of `check_rate_limit`. -/
def recent_count (h : JobHistory) (now : Int) : Nat :=
  (h.attempts.filter (fun a =>
    match a.timestamp with
    | some t => decide (now - 3600 < t)
    | none => false)).length

/-- The Guard as exercised by `apply_fix` (lines 425-435): `check_cooldown`
first; only if it passes is `check_rate_limit` consulted.  `none` models
an exception escaping `check_rate_limit`. -/
def guard_admit (workflow_name : String) (attempts : Ledger) (now : Int) :
    Option (Bool × Option String) :=
  match check_cooldown workflow_name attempts now with
  | (false, reason) => some (false, reason)
  | (true, _) => check_rate_limit workflow_name attempts now

/-- `record_fix_attempt` (autofix_workflow.py lines 138-160): create the
job's entry if absent, append a record timestamped `now`, set
`last_attempt = now`, then truncate `attempts` to its last 50 entries
(`[-50:]`, modelled as dropping `length - 50` from the front). -/
def record_fix_attempt (workflow_name failure_type action : String)
    (success : Bool) (attempts : Ledger) (now : Int) : Ledger :=
  let wa := (ledger_find attempts workflow_name).getD
    { attempts := [], last_attempt := none }
  let appended := wa.attempts ++
    [{ timestamp := some now, failure_type := failure_type,
       action := action, success := success }]
  let truncated := appended.drop (appended.length - 50)
  ledger_set attempts workflow_name
    { attempts := truncated, last_attempt := some (some now) }

/-- The observable actions of one remediation invocation, in order:
console output, the two external `gh` collaborators, and writing the
attempts file (`save_fix_attempts`). -/
inductive Effect where
  | printLine : String → Effect
  | ghIssueCreate : String → String → List String → Effect
  | ghWorkflowRun : String → Effect
  | saveLedger : Ledger → Effect
deriving DecidableEq, Repr

/-- Outcomes of the external world during one invocation: what the clock
reads (`now` in seconds, `nowStr` as `datetime.now().strftime(...)`
renders it inside ticket bodies) and whether each `gh` call exits 0,
with its captured output. -/
structure Env where
  now : Int
  nowStr : String
  issueOk : Bool
  issueOut : String
  issueErr : String
  triggerOk : Bool
  triggerErr : String

def Effect.is_print : Effect → Bool
  | .printLine _ => true
  | _ => false

def Effect.is_trigger : Effect → Bool
  | .ghWorkflowRun _ => true
  | _ => false

def Effect.is_save : Effect → Bool
  | .saveLedger _ => true
  | _ => false

/-- Effects a ticket-only code path may produce: console output and
`gh issue create`; neither a workflow trigger nor any credential/secret
mutation (the source has no code path that performs one). -/
def Effect.is_ticket_or_print : Effect → Bool
  | .printLine _ => true
  | .ghIssueCreate _ _ _ => true
  | _ => false

/-- `create_github_issue` (autofix_workflow.py lines 163-182): run
`gh issue create`; print and return according to its exit code. -/
def create_github_issue (env : Env) (title body : String)
    (labels : List String) : Bool × List Effect :=
  if env.issueOk then
    (true, [Effect.ghIssueCreate title body labels,
            Effect.printLine ("✅ Created GitHub Issue: " ++ env.issueOut)])
  else
    (false, [Effect.ghIssueCreate title body labels,
             Effect.printLine ("❌ Failed to create issue: " ++ env.issueErr)])

/-- `retry_workflow` (autofix_workflow.py lines 185-204). -/
def retry_workflow (env : Env) (workflow_name : String) (dry_run : Bool) :
    Bool × List Effect :=
  if dry_run then
    (true, [Effect.printLine ("[DRY RUN] Would trigger workflow: " ++ workflow_name)])
  else if env.triggerOk then
    (true, [Effect.ghWorkflowRun workflow_name,
            Effect.printLine ("✅ Triggered workflow: " ++ workflow_name)])
  else
    (false, [Effect.ghWorkflowRun workflow_name,
             Effect.printLine ("❌ Failed to trigger workflow: " ++ env.triggerErr)])

/-- `run_id if run_id else 'N/A'`: Python truthiness, so both `None` and
`0` render as `N/A`. -/
def run_id_str (run_id : Option Int) : String :=
  match run_id with
  | some i => if i = 0 then "N/A" else toString i
  | none => "N/A"

/-- Bare `str(run_id)` as interpolated by `f"gh run view {run_id} --log"`
in the unknown-failure ticket: `None` renders as `None`. -/
def run_id_raw (run_id : Option Int) : String :=
  match run_id with
  | some i => toString i
  | none => "None"

/-- The issue body built by `fix_permission_denied`
(autofix_workflow.py lines 214-247). -/
def fix_permission_denied_body (workflow_name : String) (run_id : Option Int)
    (nowStr : String) : String :=
  "## Workflow Failure: Permission Denied\n\n" ++
  "**Workflow**: `" ++ workflow_name ++ "`\n" ++
  "**Run ID**: " ++ run_id_str run_id ++ "\n" ++
  "**Failure Type**: 403 Permission Denied\n" ++
  "**Detected**: " ++ nowStr ++ "\n\n" ++
  "### Issue\n" ++
  "The PAT_TOKEN secret lacks sufficient permissions to push to the repository or trigger downstream workflows.\n\n" ++
  "### Required Actions\n\n" ++
  "1. **Verify PAT_TOKEN has required scopes**:\n" ++
  "   - `repo` (Full control of private repositories)\n" ++
  "   - `workflow` (Update GitHub Action workflows)\n" ++
  "   - `write:packages` (if using GitHub Packages)\n\n" ++
  "2. **Regenerate PAT if needed**:\n" ++
  "   - Go to: https://github.com/settings/tokens\n" ++
  "   - Create new token with required scopes\n" ++
  "   - Update secret: `gh secret set PAT_TOKEN --body \"YOUR_NEW_TOKEN\"`\n\n" ++
  "3. **Verify fix**:\n" ++
  "   ```bash\n" ++
  "   gh workflow run " ++ workflow_name ++ "\n" ++
  "   gh run list --workflow=" ++ workflow_name ++ " --limit 1\n" ++
  "   ```\n\n" ++
  "### Auto-Fix Status\n" ++
  "❌ **Cannot auto-fix** - Requires manual PAT regeneration for security\n\n" ++
  "---\n" ++
  "*Generated by Auto-Monitor System*\n"

/-- `fix_permission_denied` (autofix_workflow.py lines 207-254): build the
ticket; under dry-run only print it, otherwise create the issue. -/
def fix_permission_denied (env : Env) (workflow_name : String)
    (run_id : Option Int) (dry_run : Bool) : Bool × List Effect :=
  let title := "[Auto-Monitor] PAT_TOKEN Permission Error - " ++ workflow_name
  let body := fix_permission_denied_body workflow_name run_id env.nowStr
  if dry_run then
    (true, [Effect.printLine "[DRY RUN] Would create issue:",
            Effect.printLine body])
  else
    create_github_issue env title body ["bug", "auto-monitor", "security"]

/-- `fix_api_quota` (autofix_workflow.py lines 257-273): log-and-defer;
never touches a collaborator, always reports success. -/
def fix_api_quota (env : Env) (workflow_name : String)
    (run_id : Option Int) (dry_run : Bool) : Bool × List Effect :=
  let pre := [Effect.printLine ("API quota exhausted for " ++ workflow_name),
              Effect.printLine ("Waiting " ++ toString API_QUOTA_WAIT_MINUTES ++
                " minutes before retry (2-hour backoff)...")]
  if dry_run then
    (true, pre ++ [Effect.printLine ("[DRY RUN] Would wait " ++
      toString API_QUOTA_WAIT_MINUTES ++ " minutes then retry")])
  else
    (true, pre ++ [Effect.printLine
      "✅ Will retry on next monitor cycle (handled by 60-min schedule)"])

/-- `fix_empty_response` (autofix_workflow.py lines 276-290). -/
def fix_empty_response (env : Env) (workflow_name : String)
    (run_id : Option Int) (dry_run : Bool) : Bool × List Effect :=
  let pre := [Effect.printLine ("Empty response detected for " ++ workflow_name ++
    " - transient error, retrying after " ++ toString RETRY_DELAY_MINUTES ++ " min...")]
  if dry_run then
    (true, pre ++ [Effect.printLine ("[DRY RUN] Would wait " ++
      toString RETRY_DELAY_MINUTES ++ " minutes then retry")])
  else
    let r := retry_workflow env workflow_name dry_run
    (r.1, pre ++ r.2)

/-- The issue body built by `fix_missing_secret`
(autofix_workflow.py lines 300-328). -/
def fix_missing_secret_body (workflow_name : String) (run_id : Option Int)
    (nowStr : String) : String :=
  "## Workflow Failure: Missing Prompt Secret\n\n" ++
  "**Workflow**: `" ++ workflow_name ++ "`\n" ++
  "**Run ID**: " ++ run_id_str run_id ++ "\n" ++
  "**Failure Type**: Missing Environment Variable\n" ++
  "**Detected**: " ++ nowStr ++ "\n\n" ++
  "### Issue\n" ++
  "The workflow requires a prompt secret (e.g., NBA_PROMPT, STOCK_PROMPT) that is not configured.\n\n" ++
  "### Required Actions\n\n" ++
  "1. **Check config/newsfeeds.json** to identify required secret name\n" ++
  "2. **Add missing secret** via GitHub Settings:\n" ++
  "   ```bash\n" ++
  "   gh secret set YOUR_PROMPT_NAME --body \"Your prompt content here\"\n" ++
  "   ```\n" ++
  "3. **Verify fix**:\n" ++
  "   ```bash\n" ++
  "   gh workflow run " ++ workflow_name ++ "\n" ++
  "   gh run list --workflow=" ++ workflow_name ++ " --limit 1\n" ++
  "   ```\n\n" ++
  "### Auto-Fix Status\n" ++
  "❌ **Cannot auto-fix** - Requires manual secret configuration for security\n\n" ++
  "---\n" ++
  "*Generated by Auto-Monitor System*\n"

/-- `fix_missing_secret` (autofix_workflow.py lines 293-335). -/
def fix_missing_secret (env : Env) (workflow_name : String)
    (run_id : Option Int) (dry_run : Bool) : Bool × List Effect :=
  let title := "[Auto-Monitor] Missing Prompt Secret - " ++ workflow_name
  let body := fix_missing_secret_body workflow_name run_id env.nowStr
  if dry_run then
    (true, [Effect.printLine "[DRY RUN] Would create issue:",
            Effect.printLine body])
  else
    create_github_issue env title body ["bug", "auto-monitor", "configuration"]

/-- `fix_encoding_error` (autofix_workflow.py lines 338-348). -/
def fix_encoding_error (env : Env) (workflow_name : String)
    (run_id : Option Int) (dry_run : Bool) : Bool × List Effect :=
  let pre := [Effect.printLine ("Encoding error detected for " ++ workflow_name),
    Effect.printLine
      "Note: UTF-8 encoding fix already present in generate_newsfeed.py (lines 28-30)",
    Effect.printLine "Retrying workflow..."]
  let r := retry_workflow env workflow_name dry_run
  (r.1, pre ++ r.2)

/-- `fix_git_conflict` (autofix_workflow.py lines 351-356). -/
def fix_git_conflict (env : Env) (workflow_name : String)
    (run_id : Option Int) (dry_run : Bool) : Bool × List Effect :=
  let pre := [Effect.printLine ("Git conflict detected for " ++ workflow_name ++
    " - retrying...")]
  let r := retry_workflow env workflow_name dry_run
  (r.1, pre ++ r.2)

/-- The issue body built by `fix_unknown` (autofix_workflow.py lines
364-392).  Note the raw `{run_id}` interpolation in the log-review hint. -/
def fix_unknown_body (workflow_name : String) (run_id : Option Int)
    (nowStr : String) : String :=
  "## Workflow Failure: Unknown Error\n\n" ++
  "**Workflow**: `" ++ workflow_name ++ "`\n" ++
  "**Run ID**: " ++ run_id_str run_id ++ "\n" ++
  "**Failure Type**: Unknown\n" ++
  "**Detected**: " ++ nowStr ++ "\n\n" ++
  "### Issue\n" ++
  "The workflow failed with an error that doesn\x27t match known failure patterns.\n\n" ++
  "### Required Actions\n\n" ++
  "1. **Review workflow logs**:\n" ++
  "   ```bash\n" ++
  "   gh run view " ++ run_id_raw run_id ++ " --log\n" ++
  "   ```\n\n" ++
  "2. **Check for new error patterns**\n" ++
  "   - May need to update diagnose_workflow_failure.py with new pattern\n" ++
  "   - May need to add new fix strategy in autofix_workflow.py\n\n" ++
  "3. **Manual intervention required**\n\n" ++
  "### Auto-Fix Status\n" ++
  "❌ **Cannot auto-fix** - Unknown error type requires human review\n\n" ++
  "---\n" ++
  "*Generated by Auto-Monitor System*\n"

/-- `fix_unknown` (autofix_workflow.py lines 359-399). -/
def fix_unknown (env : Env) (workflow_name : String)
    (run_id : Option Int) (dry_run : Bool) : Bool × List Effect :=
  let title := "[Auto-Monitor] Unknown Workflow Failure - " ++ workflow_name
  let body := fix_unknown_body workflow_name run_id env.nowStr
  if dry_run then
    (true, [Effect.printLine "[DRY RUN] Would create issue:",
            Effect.printLine body])
  else
    create_github_issue env title body ["bug", "auto-monitor", "needs-investigation"]

/-- `FIX_STRATEGIES.get(failure_type, fix_unknown)` (autofix_workflow.py
lines 403-412 and 438): the strategy table, with `workflow_config` mapped
to `fix_unknown` and `fix_unknown` as the default for unknown keys. -/
def FIX_STRATEGIES_get (failure_type : String) (env : Env)
    (workflow_name : String) (run_id : Option Int) (dry_run : Bool) :
    Bool × List Effect :=
  if failure_type = "permission_denied" then
    fix_permission_denied env workflow_name run_id dry_run
  else if failure_type = "api_quota" then
    fix_api_quota env workflow_name run_id dry_run
  else if failure_type = "empty_response" then
    fix_empty_response env workflow_name run_id dry_run
  else if failure_type = "missing_secret" then
    fix_missing_secret env workflow_name run_id dry_run
  else if failure_type = "encoding_error" then
    fix_encoding_error env workflow_name run_id dry_run
  else if failure_type = "git_conflict" then
    fix_git_conflict env workflow_name run_id dry_run
  else
    fix_unknown env workflow_name run_id dry_run

/-- `fix_func.__name__` for the strategy chosen above, recorded as the
`action` field of the attempt. -/
def fix_func_name (failure_type : String) : String :=
  if failure_type = "permission_denied" then "fix_permission_denied"
  else if failure_type = "api_quota" then "fix_api_quota"
  else if failure_type = "empty_response" then "fix_empty_response"
  else if failure_type = "missing_secret" then "fix_missing_secret"
  else if failure_type = "encoding_error" then "fix_encoding_error"
  else if failure_type = "git_conflict" then "fix_git_conflict"
  else "fix_unknown"

/-- `print(f"...{opt}")` renders a `None` reason as Python does. -/
def opt_str : Option String → String
  | some s => s
  | none => "None"

/-- `apply_fix` (autofix_workflow.py lines 415-456), the orchestrator's
`runRemediation`: guard checks in order, each denial printing its reason
and returning `False`; on admission the strategy runs, and unless
`dry_run` the attempt is recorded and the ledger saved regardless of the
strategy's outcome.  The loaded ledger is the `attempts` argument; `none`
models the uncaught `ValueError` escaping `check_rate_limit`. -/
def apply_fix (env : Env) (attempts : Ledger)
    (workflow_name failure_type : String) (run_id : Option Int)
    (dry_run : Bool) : Option (Bool × List Effect) :=
  match check_cooldown workflow_name attempts env.now with
  | (false, cooldown_reason) =>
    some (false, [Effect.printLine ("⏸️  " ++ opt_str cooldown_reason)])
  | (true, _) =>
    match check_rate_limit workflow_name attempts env.now with
    | none => none
    | some (false, rate_reason) =>
      some (false, [Effect.printLine ("⏸️  " ++ opt_str rate_reason)])
    | some (true, _) =>
      let fr := FIX_STRATEGIES_get failure_type env workflow_name run_id dry_run
      let effs := Effect.printLine ("🔧 Applying fix for " ++ workflow_name ++
        ": " ++ failure_type) :: fr.2
      if dry_run then
        some (fr.1, effs)
      else
        some (fr.1, effs ++ [Effect.saveLedger (record_fix_attempt
          workflow_name failure_type (fix_func_name failure_type) fr.1
          attempts env.now)])

/-- `main` (autofix_workflow.py lines 459-502): `sys.exit(0 if success
else 1)`; `none` is the interpreter dying on an uncaught exception. -/
def main_exit (env : Env) (attempts : Ledger)
    (workflow_name failure_type : String) (run_id : Option Int)
    (dry_run : Bool) : Option Nat :=
  match apply_fix env attempts workflow_name failure_type run_id dry_run with
  | none => none
  | some r => some (if r.1 then 0 else 1)

/-- One piece of a regex alternative, covering exactly the constructs the
source patterns use: a literal run of characters, `.*`, and `.+` (without
`re.DOTALL`, `.` never matches a newline). -/
inductive RItem where
  | lit : List Char → RItem
  | star : RItem
  | plus : RItem
deriving DecidableEq, Repr

/-- Shorthand for a lowercased literal item (matching under
`re.IGNORECASE` is modelled by lowercasing both text and pattern). -/
def L (s : String) : RItem := RItem.lit s.data

/-- If `l` is a prefix of `cs`, the remainder of `cs`; otherwise `none`. -/
def dropLit : List Char → List Char → Option (List Char)
  | [], cs => some cs
  | _ :: _, [] => none
  | p :: ps, c :: cs => if p = c then dropLit ps cs else none

/-- Match one alternative (a sequence of items) at the start of `cs`,
returning the number of characters the match consumes.  Gaps are greedy
with backtracking (largest extent first), as in Python's `re`. -/
def matchItems : List RItem → List Char → Option Nat
  | [], _ => some 0
  | RItem.lit l :: rest, cs =>
    match dropLit l cs with
    | none => none
    | some cs' => (matchItems rest cs').map (fun n => l.length + n)
  | RItem.star :: rest, cs =>
    let m := (cs.takeWhile (fun c => !(c = '\n'))).length
    (List.range (m + 1)).reverse.findSome? (fun k =>
      (matchItems rest (cs.drop k)).map (fun n => k + n))
  | RItem.plus :: rest, cs =>
    let m := (cs.takeWhile (fun c => !(c = '\n'))).length
    (List.range m).reverse.findSome? (fun j =>
      (matchItems rest (cs.drop (j + 1))).map (fun n => (j + 1) + n))

/-- `re.search` position scan: try every start position left to right; at
each position try the alternatives in order.  Returns the start position
(relative to the `pos` accumulator) and consumed length of the match. -/
def reFindAux (pat : List (List RItem)) : List Char → Nat → Option (Nat × Nat)
  | [], pos =>
    match pat.findSome? (fun b => matchItems b []) with
    | some n => some (pos, n)
    | none => none
  | c :: cs', pos =>
    match pat.findSome? (fun b => matchItems b (c :: cs')) with
    | some n => some (pos, n)
    | none => reFindAux pat cs' (pos + 1)

/-- `re.search(pattern, text, re.IGNORECASE | re.MULTILINE)` for the
pattern subset above: `none` when there is no match, otherwise
`match.group(0)` taken from the original (non-lowercased) text. -/
def reFind (pat : List (List RItem)) (cs : List Char) : Option (List Char) :=
  match reFindAux pat (cs.map Char.toLower) 0 with
  | none => none
  | some (st, n) => some ((cs.drop st).take n)

/-- Static metadata of one failure category. -/
structure PatInfo where
  pattern : List (List RItem)
  severity : String
  fixable : Bool
  description : String
deriving Repr

/-- `FAILURE_PATTERNS` (diagnose_workflow_failure.py lines 28-71), in the
dict's declared (insertion) order.  Each Python regex becomes its list of
alternatives; the grouped alternation of `missing_secret` is distributed
into top-level alternatives in the same preference order. -/
def FAILURE_PATTERNS : List (String × PatInfo) := [
  ("permission_denied",
   { pattern := [[L "permission to ", RItem.star, L " denied"],
                 [L "fatal: unable to access", RItem.star, L "403"],
                 [L "the requested url returned error: 403"]],
     severity := "high", fixable := false,
     description := "Git push failed due to insufficient PAT_TOKEN permissions" }),
  ("api_quota",
   { pattern := [[L "quota", RItem.star, L "exceeded"],
                 [L "rate limit"],
                 [L "429"],
                 [L "resource has been exhausted"]],
     severity := "medium", fixable := true,
     description := "Gemini API quota exhausted or rate limited" }),
  ("empty_response",
   { pattern := [[L "empty response"],
                 [L "no content returned"],
                 [L "response is none"],
                 [L "response: none"]],
     severity := "low", fixable := true,
     description := "Gemini API returned empty response (transient error)" }),
  ("missing_secret",
   { pattern := [[L "nba_prompt", RItem.star, L "not set"],
                 [L "stock_prompt", RItem.star, L "not set"],
                 [RItem.star, L "_prompt", RItem.star, L "not set"],
                 [L "environment variable", RItem.star, L "nba_prompt",
                  RItem.star, L "not found"],
                 [L "environment variable", RItem.star, L "stock_prompt",
                  RItem.star, L "not found"],
                 [L "environment variable", RItem.star, L "_prompt",
                  RItem.star, L "not found"]],
     severity := "high", fixable := false,
     description := "Required prompt secret environment variable not set" }),
  ("encoding_error",
   { pattern := [[L "unicodedecodeerror"],
                 [L "codec", RItem.star, L "decode"],
                 [L "\x27utf-8\x27 codec can\x27t decode"]],
     severity := "low", fixable := true,
     description := "UTF-8 encoding error (should be fixed in latest code)" }),
  ("workflow_config",
   { pattern := [[L "invalid workflow file"],
                 [L "syntax error in workflow"],
                 [L "yaml", RItem.star, L "parse error"]],
     severity := "high", fixable := false,
     description := "Workflow YAML configuration syntax error" }),
  ("git_conflict",
   { pattern := [[L "conflict", RItem.star, L "merge"],
                 [L "failed to push", RItem.star, L "rejected"],
                 [L "updates were rejected"]],
     severity := "medium", fixable := true,
     description := "Git merge conflict or rejected push" })]

/-- The generic error-introducer patterns tried by the unknown fall-back
(diagnose_workflow_failure.py lines 218-223), in order: `Error: (.+)`,
`FATAL: (.+)`, `failed with (.+)`, `Exception: (.+)`. -/
def error_patterns : List (List (List RItem)) :=
  [[[L "error: ", RItem.plus]],
   [[L "fatal: ", RItem.plus]],
   [[L "failed with ", RItem.plus]],
   [[L "exception: ", RItem.plus]]]

/-- The classifier's result record (`categorize_failure`'s returned dict). -/
structure Diagnosis where
  type : String
  severity : String
  fixable : Bool
  description : String
  matched_text : Option String
deriving DecidableEq, Repr

/-- `categorize_failure` (diagnose_workflow_failure.py lines 183-238):
falsy input short-circuits to `unknown`/`medium`; otherwise the category
patterns are tried in declared order and the first match wins; with no
match, the fall-back is `unknown`/`high` with a snippet (`group(0)`
truncated to 200 characters) from the first error-introducer pattern
that matches anywhere in the text. -/
def categorize_failure (log_content : Option String) : Diagnosis :=
  match log_content with
  | none =>
    { type := "unknown", severity := "medium", fixable := false,
      description := "Could not retrieve logs to diagnose failure",
      matched_text := none }
  | some s =>
    if s = "" then
      { type := "unknown", severity := "medium", fixable := false,
        description := "Could not retrieve logs to diagnose failure",
        matched_text := none }
    else
      match FAILURE_PATTERNS.findSome? (fun p =>
        (reFind p.2.pattern s.data).map (fun mt =>
          ({ type := p.1, severity := p.2.severity, fixable := p.2.fixable,
             description := p.2.description,
             matched_text := some (String.mk mt) } : Diagnosis))) with
      | some d => d
      | none =>
        { type := "unknown", severity := "high", fixable := false,
          description := "Unknown failure - requires human review",
          matched_text := error_patterns.findSome? (fun p =>
            (reFind p s.data).map (fun mt => String.mk (mt.take 200))) }

/-- Whether the text matches the pattern of category number `k` of the
declared order (0-based). -/
def matchesIdx (k : Nat) (s : String) : Bool :=
  match FAILURE_PATTERNS[k]? with
  | some p => (reFind p.2.pattern s.data).isSome
  | none => false

/-- Name of category number `k` of the declared order. -/
def catName (k : Nat) : String :=
  match FAILURE_PATTERNS[k]? with
  | some p => p.1
  | none => "unknown"

theorem ledger_find_map_set (w : String) (h : JobHistory) :
    ∀ (l : Ledger), (ledger_find l w).isSome = true →
      ledger_find (l.map (fun p => if p.1 = w then (w, h) else p)) w = some h := by
  intro l
  induction l with
  | nil => simp [ledger_find]
  | cons p rest ih =>
    obtain ⟨k, v⟩ := p
    intro hf
    by_cases hk : k = w
    · subst hk
      have hhead : (if (k, v).1 = k then (k, h) else (k, v)) = (k, h) := if_pos rfl
      simp only [List.map_cons, hhead]
      simp [ledger_find]
    · have hw : ¬(w = k) := fun e => hk e.symm
      simp only [ledger_find, hw, if_false, ite_false] at hf
      simp only [List.map_cons]
      rw [if_neg hk]
      simpa [ledger_find, hw] using ih hf

theorem ledger_find_append_new (w : String) (h : JobHistory) :
    ∀ (l : Ledger), ledger_find l w = none →
      ledger_find (l ++ [(w, h)]) w = some h := by
  intro l
  induction l with
  | nil => simp [ledger_find]
  | cons p rest ih =>
    obtain ⟨k, v⟩ := p
    intro hf
    by_cases hw : w = k
    · simp [ledger_find, hw] at hf
    · simp only [ledger_find, hw, if_false, ite_false] at hf
      simpa [ledger_find, hw] using ih hf

/-- Dict assignment followed by lookup of the same key. -/
theorem ledger_find_set (l : Ledger) (w : String) (h : JobHistory) :
    ledger_find (ledger_set l w h) w = some h := by
  unfold ledger_set
  by_cases hf : (ledger_find l w).isSome
  · rw [if_pos hf]
    exact ledger_find_map_set w h l hf
  · rw [if_neg hf]
    exact ledger_find_append_new w h l (Option.not_isSome_iff_eq_none.mp hf)

theorem findSome_eq_of_first {α β : Type} (f : α → Option β) :
    ∀ (l : List α) (k : Nat) (x : α) (b : β),
      l[k]? = some x → f x = some b →
      (∀ m, m < k → ∀ y, l[m]? = some y → f y = none) →
      l.findSome? f = some b := by
  intro l
  induction l with
  | nil => intro k x b hk; simp at hk
  | cons a t ih =>
    intro k x b hk hfx hmin
    cases k with
    | zero =>
      simp only [List.getElem?_cons_zero, Option.some.injEq] at hk
      subst hk
      simp [List.findSome?_cons, hfx]
    | succ k' =>
      have ha : f a = none := hmin 0 (Nat.succ_pos _) a (by simp)
      rw [List.findSome?_cons, ha]
      exact ih k' x b (by simpa using hk) hfx
        (fun m hm y hy => hmin (m + 1) (Nat.succ_lt_succ hm) y (by simpa using hy))

theorem findSome_eq_none_of_all {α β : Type} (f : α → Option β) :
    ∀ (l : List α), (∀ (m : Nat) (y : α), l[m]? = some y → f y = none) →
      l.findSome? f = none := by
  intro l
  induction l with
  | nil => intro _; simp
  | cons a t ih =>
    intro hall
    have ha : f a = none := hall 0 a (by simp)
    rw [List.findSome?_cons, ha]
    exact ih (fun m y hy => hall (m + 1) y (by simpa using hy))

theorem findSome_some_elim {α β : Type} (f : α → Option β) :
    ∀ (l : List α) (b : β), l.findSome? f = some b →
      ∃ (k : Nat) (x : α), l[k]? = some x ∧ f x = some b ∧
        ∀ m, m < k → ∀ y, l[m]? = some y → f y = none := by
  intro l
  induction l with
  | nil => intro b hb; simp at hb
  | cons a t ih =>
    intro b hb
    rw [List.findSome?_cons] at hb
    cases ha : f a with
    | some b' =>
      rw [ha] at hb
      refine ⟨0, a, by simp, ?_, ?_⟩
      · simpa [ha] using hb
      · intro m hm; omega
    | none =>
      rw [ha] at hb
      obtain ⟨k, x, hk, hfx, hmin⟩ := ih b hb
      refine ⟨k + 1, x, by simpa using hk, hfx, ?_⟩
      intro m hm y hy
      cases m with
      | zero =>
        have hay : a = y := by simpa using hy
        rw [← hay]; exact ha
      | succ m' => exact hmin m' (by omega) y (by simpa using hy)

/-- C1: amended. Parse errors on the stored `last_attempt` do degrade to
Admit: `check_cooldown` catches them and returns `(True, None)`.  But an
unparsable timestamp inside any `attempts` entry makes `check_rate_limit`
raise an uncaught `ValueError`, so the admit decision does not complete
at all (it neither admits nor denies). -/
theorem c1_guard_parse_errors :
    (∀ (l : Ledger) (w : String) (now : Int) (h : JobHistory),
      ledger_find l w = some h → h.last_attempt = some none →
      check_cooldown w l now = (true, none)) ∧
    (∀ (l : Ledger) (w : String) (now : Int) (h : JobHistory),
      ledger_find l w = some h →
      h.attempts.all (fun a => a.timestamp.isSome) = false →
      check_rate_limit w l now = none) := by
  constructor
  · intro l w now h hf hl
    simp [check_cooldown, hf, hl]
  · intro l w now h hf ha
    simp [check_rate_limit, hf, ha]

/-- A ledger snapshot whose stored timestamps are all corrupt: the job's
`last_attempt` does not parse, and its single `attempts` entry's
timestamp does not parse either. -/
def c1_corrupt_history : JobHistory :=
  { attempts := [{ timestamp := none, failure_type := "api_quota",
                   action := "fix_api_quota", success := true }],
    last_attempt := some none }

def c1_corrupt_ledger : Ledger := [("nba-news.yml", c1_corrupt_history)]

/-- C1: counterexample.  On this corrupt snapshot the Guard's admit
decision (`check_cooldown` then `check_rate_limit`, as sequenced by
`apply_fix`) does not return Admit: it does not complete at all, because
`check_rate_limit` raises on the unparsable attempts-entry timestamp. -/
theorem c1_counterexample :
    guard_admit "nba-news.yml" c1_corrupt_ledger 0 = none ∧
    guard_admit "nba-news.yml" c1_corrupt_ledger 0 ≠ some (true, none) := by
  exact ⟨rfl, by decide⟩

theorem c1_guard_parse_errors_witness :
    check_cooldown "nba-news.yml" c1_corrupt_ledger 0 = (true, none) ∧
    check_rate_limit "nba-news.yml" c1_corrupt_ledger 0 = none := by
  constructor
  · exact c1_guard_parse_errors.1 c1_corrupt_ledger "nba-news.yml" 0
      c1_corrupt_history rfl rfl
  · exact c1_guard_parse_errors.2 c1_corrupt_ledger "nba-news.yml" 0
      c1_corrupt_history rfl rfl

/-- C4: with a parsable `lastAttempt = T`, `check_cooldown` denies exactly
when `now < T + 60 minutes`; the denial reason carries the remaining
whole minutes rounded down (the stated bounds are the floor
characterization); an attempt at `T + 59min` is denied, at `T + 61min`
the cooldown passes, and if additionally the rate limit passes the Guard
admits. -/
theorem c4_cooldown_denial :
    ∀ (l : Ledger) (w : String) (T now : Int) (h : JobHistory),
      ledger_find l w = some h → h.last_attempt = some (some T) →
      (((check_cooldown w l now).1 = false) ↔ now < T + 60 * 60) ∧
      (now < T + 60 * 60 →
        check_cooldown w l now = (false, some ("Cooldown active for " ++
          toString ((T + 60 * 60 - now).toNat / 60) ++
          " more minutes (60-min cooldown period)"))) ∧
      (now < T + 60 * 60 →
        60 * ((T + 60 * 60 - now).toNat / 60) ≤ (T + 60 * 60 - now).toNat ∧
        (T + 60 * 60 - now).toNat < 60 * ((T + 60 * 60 - now).toNat / 60 + 1) ∧
        ((T + 60 * 60 - now).toNat : Int) = T + 60 * 60 - now) ∧
      check_cooldown w l (T + 59 * 60) = (false, some
        "Cooldown active for 1 more minutes (60-min cooldown period)") ∧
      (check_cooldown w l (T + 61 * 60)).1 = true ∧
      (check_rate_limit w l (T + 61 * 60) = some (true, none) →
        guard_admit w l (T + 61 * 60) = some (true, none)) := by
  intro l w T now h hf hl
  have hcc : ∀ n : Int, check_cooldown w l n =
      (if n < T + 60 * 60 then (false, some ("Cooldown active for " ++
        toString ((T + 60 * 60 - n).toNat / 60) ++
        " more minutes (60-min cooldown period)")) else (true, none)) := by
    intro n
    simp only [check_cooldown, hf, hl, COOLDOWN_MINUTES]
  refine ⟨?_, ?_, ?_, ?_, ?_, ?_⟩
  · rw [hcc now]
    by_cases hn : now < T + 60 * 60
    · simp only [if_pos hn]
      simpa using hn
    · simp only [if_neg hn]
      simpa using hn
  · intro hn
    rw [hcc now, if_pos hn]
  · intro hn
    omega
  · rw [hcc (T + 59 * 60), if_pos (by omega)]
    have h60 : (T + 60 * 60 - (T + 59 * 60)).toNat = 60 := by omega
    rw [h60]
    decide
  · rw [hcc (T + 61 * 60), if_neg (by omega)]
  · intro hr
    unfold guard_admit
    rw [hcc (T + 61 * 60), if_neg (by omega)]
    exact hr

def c4_history : JobHistory := { attempts := [], last_attempt := some (some 0) }

theorem c4_cooldown_denial_witness :
    (check_cooldown "w" [("w", c4_history)] 100).1 = false ∧
    check_cooldown "w" [("w", c4_history)] (0 + 59 * 60) = (false, some
      "Cooldown active for 1 more minutes (60-min cooldown period)") ∧
    (check_cooldown "w" [("w", c4_history)] (0 + 61 * 60)).1 = true := by
  have h := c4_cooldown_denial [("w", c4_history)] "w" 0 100 c4_history rfl rfl
  exact ⟨h.1.mpr (by norm_num), h.2.2.2.1, h.2.2.2.2.1⟩

/-- C5: once the cooldown check passes and every stored timestamp parses,
the Guard denies exactly when at least `MAX_FIX_ATTEMPTS_PER_HOUR = 3` of
the recorded attempts fall strictly inside the trailing hour, the denial
reason carrying that count and the limit; with 3 such attempts the next
admit is denied, with 2 it is admitted. -/
theorem c5_rate_limit_denial :
    ∀ (l : Ledger) (w : String) (now : Int) (h : JobHistory),
      ledger_find l w = some h →
      (check_cooldown w l now).1 = true →
      h.attempts.all (fun a => a.timestamp.isSome) = true →
      ((∃ m, guard_admit w l now = some (false, some m)) ↔
        MAX_FIX_ATTEMPTS_PER_HOUR ≤ recent_count h now) ∧
      (MAX_FIX_ATTEMPTS_PER_HOUR ≤ recent_count h now →
        guard_admit w l now = some (false, some ("Rate limit exceeded: " ++
          toString (recent_count h now) ++ "/" ++
          toString MAX_FIX_ATTEMPTS_PER_HOUR ++ " attempts in last hour"))) ∧
      (recent_count h now < MAX_FIX_ATTEMPTS_PER_HOUR →
        guard_admit w l now = some (true, none)) ∧
      (recent_count h now = 3 → ∃ m, guard_admit w l now = some (false, some m)) ∧
      (recent_count h now = 2 → guard_admit w l now = some (true, none)) := by
  intro l w now h hf hcool hall
  have hg : guard_admit w l now = check_rate_limit w l now := by
    unfold guard_admit
    rcases hcc : check_cooldown w l now with ⟨b, r⟩
    rw [hcc] at hcool
    simp only at hcool
    subst hcool
    rfl
  have hrl : check_rate_limit w l now =
      (if MAX_FIX_ATTEMPTS_PER_HOUR ≤ recent_count h now then
        some (false, some ("Rate limit exceeded: " ++
          toString (recent_count h now) ++ "/" ++
          toString MAX_FIX_ATTEMPTS_PER_HOUR ++ " attempts in last hour"))
      else some (true, none)) := by
    simp only [check_rate_limit, hf, hall, if_true]
    rfl
  rw [hg, hrl]
  by_cases hc : MAX_FIX_ATTEMPTS_PER_HOUR ≤ recent_count h now
  · rw [if_pos hc]
    refine ⟨⟨fun _ => hc, fun _ => ⟨_, rfl⟩⟩, fun _ => rfl, ?_, ?_, ?_⟩
    · intro hlt; omega
    · intro _; exact ⟨_, rfl⟩
    · intro h2
      simp only [MAX_FIX_ATTEMPTS_PER_HOUR] at hc
      omega
  · rw [if_neg hc]
    refine ⟨⟨?_, fun hge => absurd hge hc⟩, fun hge => absurd hge hc, fun _ => rfl, ?_, fun _ => rfl⟩
    · rintro ⟨m, hm⟩
      simp at hm
    · intro h3
      simp only [MAX_FIX_ATTEMPTS_PER_HOUR] at hc
      omega

def c5_attempt (t : Int) : AttemptRecord :=
  { timestamp := some t, failure_type := "empty_response",
    action := "fix_empty_response", success := true }

def c5_history3 : JobHistory :=
  { attempts := [c5_attempt 100, c5_attempt 200, c5_attempt 300],
    last_attempt := none }

def c5_history2 : JobHistory :=
  { attempts := [c5_attempt 100, c5_attempt 200], last_attempt := none }

theorem c5_rate_limit_denial_witness :
    (∃ m, guard_admit "w" [("w", c5_history3)] 600 = some (false, some m)) ∧
    guard_admit "w" [("w", c5_history2)] 600 = some (true, none) := by
  constructor
  · exact (c5_rate_limit_denial [("w", c5_history3)] "w" 600 c5_history3
      rfl rfl rfl).2.2.2.1 (by decide)
  · exact (c5_rate_limit_denial [("w", c5_history2)] "w" 600 c5_history2
      rfl rfl rfl).2.2.2.2 (by decide)

/-- The full appended attempts sequence of one `record_fix_attempt` call,
before truncation: the job's previous attempts (empty for a new job)
followed by the new record timestamped `now`. -/
def appended_attempts (l : Ledger) (w ft act : String) (succ : Bool)
    (now : Int) : List AttemptRecord :=
  ((ledger_find l w).getD { attempts := [], last_attempt := none }).attempts ++
    [{ timestamp := some now, failure_type := ft, action := act, success := succ }]

/-- What `record_fix_attempt` stores as the job's attempts: the appended
sequence with everything but its last 50 entries dropped from the front. -/
def truncated_attempts (l : Ledger) (w ft act : String) (succ : Bool)
    (now : Int) : List AttemptRecord :=
  (appended_attempts l w ft act succ now).drop
    ((appended_attempts l w ft act succ now).length - 50)

set_option maxRecDepth 4000 in
/-- C6: after every append the job's stored attempts are a suffix of the
full appended sequence (oldest entries dropped first, order kept) of
length at most 50, the last stored entry is the new record, and
`lastAttempt` is exactly its timestamp (never null after an append);
appending 60 attempts to a fresh job keeps exactly the last 50 in
chronological order with `lastAttempt` the 60th timestamp. -/
theorem c6_ledger_truncation :
    (∀ (l : Ledger) (w ft act : String) (succ : Bool) (now : Int),
      ∃ h', ledger_find (record_fix_attempt w ft act succ l now) w = some h' ∧
        h'.attempts.length ≤ 50 ∧
        appended_attempts l w ft act succ now =
          (appended_attempts l w ft act succ now).take
            ((appended_attempts l w ft act succ now).length - 50) ++ h'.attempts ∧
        h'.attempts = truncated_attempts l w ft act succ now ∧
        h'.attempts.getLast? = some ({ timestamp := some now, failure_type := ft, action := act, success := succ } : AttemptRecord) ∧
        h'.last_attempt = some (some now) ∧
        h'.attempts ≠ []) ∧
    ((ledger_find ((List.range 60).foldl (fun acc i =>
        record_fix_attempt "job-a" "empty_response" "fix_empty_response" true acc
          (Int.ofNat i)) []) "job-a").map
      (fun h => (h.attempts.map (fun r => r.timestamp), h.last_attempt)) =
      some (((List.range 60).drop 10).map (fun i => some (Int.ofNat i)),
        some (some 59))) := by
  constructor
  · intro l w ft act succ now
    refine ⟨{ attempts := truncated_attempts l w ft act succ now, last_attempt := some (some now) },
      ?_, ?_, ?_, rfl, ?_, rfl, ?_⟩
    · unfold record_fix_attempt
      exact ledger_find_set l w _
    · show (truncated_attempts l w ft act succ now).length ≤ 50
      unfold truncated_attempts
      rw [List.length_drop]
      omega
    · exact (List.take_append_drop _ _).symm
    · show (truncated_attempts l w ft act succ now).getLast? = _
      unfold truncated_attempts appended_attempts
      rw [List.drop_append_of_le_length (by simp), List.getLast?_concat]
    · show truncated_attempts l w ft act succ now ≠ []
      intro he
      have hlen := congrArg List.length he
      unfold truncated_attempts at hlen
      rw [List.length_drop] at hlen
      simp only [List.length_nil] at hlen
      have hpos : 0 < (appended_attempts l w ft act succ now).length := by
        unfold appended_attempts
        simp
      omega
  · decide

/-- C2: for the security-sensitive categories `permission_denied` and
`missing_secret`, under every environment, run id and dry-run flag, the
dispatcher's branch only ever prints and (when not dry-run) creates a
ticket: its trace contains no workflow re-run trigger and no ledger
write, and under dry-run it is console output only. -/
theorem c2_security_categories_ticket_only :
    ∀ (env : Env) (w : String) (rid : Option Int) (dry : Bool),
      (FIX_STRATEGIES_get "permission_denied" env w rid dry).2.all
        Effect.is_ticket_or_print = true ∧
      (FIX_STRATEGIES_get "missing_secret" env w rid dry).2.all
        Effect.is_ticket_or_print = true ∧
      (FIX_STRATEGIES_get "permission_denied" env w rid dry).2.all
        (fun e => !e.is_trigger) = true ∧
      (FIX_STRATEGIES_get "missing_secret" env w rid dry).2.all
        (fun e => !e.is_trigger) = true ∧
      (FIX_STRATEGIES_get "permission_denied" env w rid dry).2.all
        (fun e => !e.is_save) = true ∧
      (FIX_STRATEGIES_get "missing_secret" env w rid dry).2.all
        (fun e => !e.is_save) = true ∧
      (FIX_STRATEGIES_get "permission_denied" env w rid true).2.all
        Effect.is_print = true ∧
      (FIX_STRATEGIES_get "missing_secret" env w rid true).2.all
        Effect.is_print = true := by
  intro env w rid dry
  cases dry <;> cases henv : env.issueOk <;>
    simp [FIX_STRATEGIES_get, fix_permission_denied, fix_missing_secret,
      create_github_issue, henv, Effect.is_ticket_or_print, Effect.is_trigger,
      Effect.is_save, Effect.is_print]

/-- Every strategy's dry-run trace is console output only. -/
theorem dispatch_dry_all_print :
    ∀ (ft : String) (env : Env) (w : String) (rid : Option Int),
      (FIX_STRATEGIES_get ft env w rid true).2.all Effect.is_print = true := by
  intro ft env w rid
  unfold FIX_STRATEGIES_get
  split_ifs <;>
    simp [fix_permission_denied, fix_api_quota, fix_empty_response,
      fix_missing_secret, fix_encoding_error, fix_git_conflict, fix_unknown,
      retry_workflow, Effect.is_print]

/-- C7: the orchestrator `apply_fix` on a cooldown denial or rate-limit
denial returns `False` with only the denial message printed (no dispatch,
no ledger append, no save); on admission it runs the mapped strategy and,
unless dry-run, appends the attempt (with the strategy's name and its
success flag, whatever it is) and saves, in that order. -/
theorem c7_orchestrator_guard_gating :
    ∀ (env : Env) (l : Ledger) (w ft : String) (rid : Option Int) (dry : Bool),
      (∀ msg, check_cooldown w l env.now = (false, msg) →
        apply_fix env l w ft rid dry =
          some (false, [Effect.printLine ("⏸️  " ++ opt_str msg)])) ∧
      (∀ msg, (check_cooldown w l env.now).1 = true →
        check_rate_limit w l env.now = some (false, msg) →
        apply_fix env l w ft rid dry =
          some (false, [Effect.printLine ("⏸️  " ++ opt_str msg)])) ∧
      ((check_cooldown w l env.now).1 = true →
        ∀ r2, check_rate_limit w l env.now = some (true, r2) →
        apply_fix env l w ft rid dry =
          some ((FIX_STRATEGIES_get ft env w rid dry).1,
            Effect.printLine ("🔧 Applying fix for " ++ w ++ ": " ++ ft) ::
              (FIX_STRATEGIES_get ft env w rid dry).2 ++
            (if dry then [] else [Effect.saveLedger (record_fix_attempt w ft
              (fix_func_name ft) (FIX_STRATEGIES_get ft env w rid dry).1
              l env.now)]))) := by
  intro env l w ft rid dry
  refine ⟨?_, ?_, ?_⟩
  · intro msg hc
    simp [apply_fix, hc]
  · intro msg hc1 hr
    rcases hcc : check_cooldown w l env.now with ⟨b, r⟩
    rw [hcc] at hc1
    simp only at hc1
    subst hc1
    simp [apply_fix, hcc, hr]
  · intro hc1 r2 hr
    rcases hcc : check_cooldown w l env.now with ⟨b, r⟩
    rw [hcc] at hc1
    simp only at hc1
    subst hc1
    cases dry <;> simp [apply_fix, hcc, hr]

def c7_cool_history : JobHistory := { attempts := [], last_attempt := some (some 0) }

def c7_env : Env :=
  { now := 10, nowStr := "2026-10-12 00:00:10 UTC", issueOk := true,
    issueOut := "https://github.com/x/y/issues/1", issueErr := "",
    triggerOk := true, triggerErr := "" }

theorem c7_orchestrator_guard_gating_witness :
    apply_fix c7_env [("w", c7_cool_history)] "w" "api_quota" none false =
      some (false, [Effect.printLine
        "⏸️  Cooldown active for 59 more minutes (60-min cooldown period)"]) := by
  exact (c7_orchestrator_guard_gating c7_env [("w", c7_cool_history)] "w"
    "api_quota" none false).1
    (some "Cooldown active for 59 more minutes (60-min cooldown period)")
    (by decide)

/-- C8: a dry-run invocation of the orchestrator produces console output
only — no `gh issue create`, no `gh workflow run`, and no write of the
attempts file, whatever the category and guard outcome (and on the
guard-crash path nothing at all happens) — and each category's dry-run
dispatch returns its would-be result while printing the intended ticket
body or trigger action. -/
theorem c8_dry_run_no_external_effects :
    (∀ (env : Env) (l : Ledger) (w ft : String) (rid : Option Int),
      (apply_fix env l w ft rid true).all (fun r => r.2.all Effect.is_print) = true) ∧
    (∀ (env : Env) (w : String) (rid : Option Int),
      FIX_STRATEGIES_get "permission_denied" env w rid true =
        (true, [Effect.printLine "[DRY RUN] Would create issue:",
          Effect.printLine (fix_permission_denied_body w rid env.nowStr)]) ∧
      FIX_STRATEGIES_get "missing_secret" env w rid true =
        (true, [Effect.printLine "[DRY RUN] Would create issue:",
          Effect.printLine (fix_missing_secret_body w rid env.nowStr)]) ∧
      FIX_STRATEGIES_get "api_quota" env w rid true =
        (true, [Effect.printLine ("API quota exhausted for " ++ w),
          Effect.printLine "Waiting 120 minutes before retry (2-hour backoff)...",
          Effect.printLine "[DRY RUN] Would wait 120 minutes then retry"]) ∧
      FIX_STRATEGIES_get "empty_response" env w rid true =
        (true, [Effect.printLine ("Empty response detected for " ++ w ++
            " - transient error, retrying after 10 min..."),
          Effect.printLine "[DRY RUN] Would wait 10 minutes then retry"]) ∧
      FIX_STRATEGIES_get "encoding_error" env w rid true =
        (true, [Effect.printLine ("Encoding error detected for " ++ w),
          Effect.printLine "Note: UTF-8 encoding fix already present in generate_newsfeed.py (lines 28-30)",
          Effect.printLine "Retrying workflow...",
          Effect.printLine ("[DRY RUN] Would trigger workflow: " ++ w)]) ∧
      FIX_STRATEGIES_get "git_conflict" env w rid true =
        (true, [Effect.printLine ("Git conflict detected for " ++ w ++ " - retrying..."),
          Effect.printLine ("[DRY RUN] Would trigger workflow: " ++ w)]) ∧
      FIX_STRATEGIES_get "workflow_config" env w rid true =
        (true, [Effect.printLine "[DRY RUN] Would create issue:",
          Effect.printLine (fix_unknown_body w rid env.nowStr)]) ∧
      FIX_STRATEGIES_get "unknown" env w rid true =
        (true, [Effect.printLine "[DRY RUN] Would create issue:",
          Effect.printLine (fix_unknown_body w rid env.nowStr)])) := by
  constructor
  · intro env l w ft rid
    rcases hcc : check_cooldown w l env.now with ⟨b, r⟩
    cases b
    · simp [apply_fix, hcc, Effect.is_print]
    · rcases hr : check_rate_limit w l env.now with _ | ⟨b2, r2⟩
      · simp [apply_fix, hcc, hr]
      · cases b2
        · simp [apply_fix, hcc, hr, Effect.is_print]
        · simp [apply_fix, hcc, hr, Effect.is_print,
            dispatch_dry_all_print ft env w rid]
  · intro env w rid
    refine ⟨?_, ?_, ?_, ?_, ?_, ?_, ?_, ?_⟩ <;>
      simp [FIX_STRATEGIES_get, fix_permission_denied, fix_missing_secret,
        fix_api_quota, fix_empty_response, fix_encoding_error, fix_git_conflict,
        fix_unknown, retry_workflow, API_QUOTA_WAIT_MINUTES, RETRY_DELAY_MINUTES]
    all_goals simp only [String.append_assoc]
    all_goals constructor
    all_goals first
      | decide
      | rw [show " - transient error, retrying after " ++ (toString (10 : Nat) ++ " min...") = " - transient error, retrying after 10 min..." from by decide]

/-- C10: dry-run does not bypass the Guard: whenever the loaded history
puts the job in cooldown, or past the hourly rate limit once cooldown
passes, a dry-run `apply_fix` is denied — it returns `False` (so the CLI
exits 1) and its whole trace is the single denial message, so no fix
strategy runs, not even its dry-run printing path. -/
theorem c10_dry_run_guard_enforced :
    ∀ (env : Env) (l : Ledger) (w ft : String) (rid : Option Int),
      ((check_cooldown w l env.now).1 = false ∨
        ((check_cooldown w l env.now).1 = true ∧
          ∃ r2, check_rate_limit w l env.now = some (false, r2))) →
      ∃ msg, apply_fix env l w ft rid true =
          some (false, [Effect.printLine msg]) ∧
        main_exit env l w ft rid true = some 1 := by
  intro env l w ft rid hdeny
  rcases hcc : check_cooldown w l env.now with ⟨b, r⟩
  rcases hdeny with hc | ⟨hc, r2, hr⟩
  · rw [hcc] at hc
    simp only at hc
    subst hc
    refine ⟨"⏸️  " ++ opt_str r, ?_, ?_⟩
    · simp [apply_fix, hcc]
    · simp [main_exit, apply_fix, hcc]
  · rw [hcc] at hc
    simp only at hc
    subst hc
    refine ⟨"⏸️  " ++ opt_str r2, ?_, ?_⟩
    · simp [apply_fix, hcc, hr]
    · simp [main_exit, apply_fix, hcc, hr]

def c10_attempt (t : Int) : AttemptRecord :=
  { timestamp := some t, failure_type := "empty_response",
    action := "fix_empty_response", success := false }

def c10_rate_history : JobHistory :=
  { attempts := [c10_attempt 100, c10_attempt 200, c10_attempt 300],
    last_attempt := none }

def c10_env : Env :=
  { now := 600, nowStr := "2026-10-12 00:10:00 UTC", issueOk := true,
    issueOut := "", issueErr := "", triggerOk := true, triggerErr := "" }

theorem c10_dry_run_guard_enforced_witness :
    ∃ msg, apply_fix c10_env [("w", c10_rate_history)] "w" "empty_response"
        none true = some (false, [Effect.printLine msg]) ∧
      main_exit c10_env [("w", c10_rate_history)] "w" "empty_response"
        none true = some 1 := by
  exact c10_dry_run_guard_enforced c10_env [("w", c10_rate_history)] "w"
    "empty_response" none
    (Or.inr ⟨rfl, some "Rate limit exceeded: 3/3 attempts in last hour", by decide⟩)

theorem findSome_none_forall {α β : Type} (f : α → Option β) :
    ∀ (l : List α), l.findSome? f = none → ∀ x ∈ l, f x = none := by
  intro l
  induction l with
  | nil => intro _ x hx; simp at hx
  | cons a t ih =>
    intro hn x hx
    rw [List.findSome?_cons] at hn
    cases ha : f a with
    | some b => rw [ha] at hn; simp at hn
    | none =>
      rw [ha] at hn
      rcases List.mem_cons.mp hx with hx | hx
      · rw [hx]; exact ha
      · exact ih hn x hx

/-- C3: when the log text matches the patterns of two categories, the
classifier returns the one earlier in the declared order: if category `i`
matches, no earlier category matches, and some later category `j` also
matches, the diagnosis is category `i` — a different category than `j`. -/
theorem c3_classifier_first_match_order :
    ∀ (s : String) (i j : Nat), s ≠ "" → i < j → j < 7 →
      matchesIdx i s = true → matchesIdx j s = true →
      (∀ m, m < i → matchesIdx m s = false) →
      (categorize_failure (some s)).type = catName i ∧ catName i ≠ catName j := by
  intro s i j hs hij hj7 hi hj hmin
  have hdist : ∀ j', j' < 7 → ∀ i', i' < j' → catName i' ≠ catName j' := by decide
  refine ⟨?_, hdist j hj7 i hij⟩
  cases hx : FAILURE_PATTERNS[i]? with
  | none => simp [matchesIdx, hx] at hi
  | some x =>
    simp only [matchesIdx, hx] at hi
    cases hre : reFind x.2.pattern s.data with
    | none => rw [hre] at hi; simp at hi
    | some m =>
      have hfs : FAILURE_PATTERNS.findSome? (fun p =>
            (reFind p.2.pattern s.data).map (fun mt =>
              ({ type := p.1, severity := p.2.severity, fixable := p.2.fixable,
                 description := p.2.description,
                 matched_text := some (String.mk mt) } : Diagnosis))) =
          some ({ type := x.1, severity := x.2.severity, fixable := x.2.fixable,
                  description := x.2.description,
                  matched_text := some (String.mk m) } : Diagnosis) := by
        refine findSome_eq_of_first _ FAILURE_PATTERNS i x _ hx (by rw [hre]; rfl) ?_
        intro m' hm' y hy
        have hmy := hmin m' hm'
        simp only [matchesIdx, hy] at hmy
        cases hre' : reFind y.2.pattern s.data with
        | none => simp [hre']
        | some m2 => rw [hre'] at hmy; simp at hmy
      simp only [categorize_failure, if_neg hs, hfs, catName, hx]

theorem c3_classifier_first_match_order_witness :
    (categorize_failure
      (some "The requested URL returned error: 403 rate limit")).type =
      "permission_denied" := by
  have h := c3_classifier_first_match_order
    "The requested URL returned error: 403 rate limit" 0 1 (by decide)
    (by decide) (by decide) (by decide) (by decide)
    (fun m hm => absurd hm (Nat.not_lt_zero m))
  have h0 : catName 0 = "permission_denied" := rfl
  rw [h0] at h
  exact h.1

/-- C9: on non-empty text matching none of the seven category patterns the
classifier falls back to `unknown` with severity `high` and
`autoFixable = false`, and the evidence is either null (no
error-introducer phrase matches) or the `group(0)` snippet of the first
error-introducer pattern in the list order that matches anywhere,
truncated to at most 200 characters. -/
theorem c9_unknown_fallback :
    ∀ (s : String), s ≠ "" → (∀ k, k < 7 → matchesIdx k s = false) →
      (categorize_failure (some s)).type = "unknown" ∧
      (categorize_failure (some s)).severity = "high" ∧
      (categorize_failure (some s)).fixable = false ∧
      (categorize_failure (some s)).description =
        "Unknown failure - requires human review" ∧
      (((categorize_failure (some s)).matched_text = none ∧
          ∀ p ∈ error_patterns, reFind p s.data = none) ∨
        (∃ (k : Nat) (p : List (List RItem)) (m : List Char),
          error_patterns[k]? = some p ∧ reFind p s.data = some m ∧
          (∀ (k' : Nat) (p' : List (List RItem)), k' < k →
            error_patterns[k']? = some p' → reFind p' s.data = none) ∧
          (categorize_failure (some s)).matched_text =
            some (String.mk (m.take 200)) ∧
          (String.mk (m.take 200)).length ≤ 200)) := by
  intro s hs hk
  have hnone : FAILURE_PATTERNS.findSome? (fun p =>
      (reFind p.2.pattern s.data).map (fun mt =>
        ({ type := p.1, severity := p.2.severity, fixable := p.2.fixable,
           description := p.2.description,
           matched_text := some (String.mk mt) } : Diagnosis))) = none := by
    refine findSome_eq_none_of_all _ FAILURE_PATTERNS ?_
    intro k y hy
    have hk7 : k < 7 := by
      rcases List.getElem?_eq_some.mp hy with ⟨hlt, _⟩
      exact hlt
    have hky := hk k hk7
    simp only [matchesIdx, hy] at hky
    cases hre : reFind y.2.pattern s.data with
    | none => simp [hre]
    | some m => rw [hre] at hky; simp at hky
  have hcat : categorize_failure (some s) =
      { type := "unknown", severity := "high", fixable := false,
        description := "Unknown failure - requires human review",
        matched_text := error_patterns.findSome? (fun p =>
          (reFind p s.data).map (fun mt => String.mk (mt.take 200))) } := by
    simp only [categorize_failure, if_neg hs, hnone]
  rw [hcat]
  refine ⟨rfl, rfl, rfl, rfl, ?_⟩
  dsimp only
  cases hsn : error_patterns.findSome? (fun p =>
      (reFind p s.data).map (fun mt => String.mk (mt.take 200))) with
  | none =>
    left
    refine ⟨rfl, ?_⟩
    intro p hp
    have hgp := findSome_none_forall _ error_patterns hsn p hp
    cases hre : reFind p s.data with
    | none => rfl
    | some m => rw [hre] at hgp; simp at hgp
  | some t =>
    right
    obtain ⟨k, p, hkp, hgp, hmin⟩ := findSome_some_elim _ error_patterns t hsn
    cases hre : reFind p s.data with
    | none => rw [hre] at hgp; simp at hgp
    | some m =>
      rw [hre, Option.map_some'] at hgp
      refine ⟨k, p, m, hkp, hre, ?_, ?_, ?_⟩
      · intro k' p' hk' hkp'
        have hgp' := hmin k' hk' p' hkp'
        cases hre' : reFind p' s.data with
        | none => rfl
        | some m2 => rw [hre'] at hgp'; simp at hgp'
      · exact hgp.symm
      · show (m.take 200).length ≤ 200
        rw [List.length_take]
        omega

theorem c9_unknown_fallback_witness :
    (categorize_failure (some "Error: boom")).type = "unknown" ∧
    (categorize_failure (some "Error: boom")).severity = "high" ∧
    (categorize_failure (some "Error: boom")).fixable = false := by
  have h := c9_unknown_fallback "Error: boom" (by decide) (by decide)
  exact ⟨h.1, h.2.1, h.2.2.1⟩
